import Mathlib

/-!
Verification of the SpectacleCore orchestration layer (SpectacleCore.cpp,
KSCore.h). The C++ code is a thin event-wiring layer over Qt/KDE; we embed
each relevant member function as a pure Lean function from its inputs
(member fields, platform predicates supplied by the framework) to the list
of framework actions it performs, in source order.
-/

namespace Spectacle

/-- Start mode of the application, from SpectacleCore.h / the constructor
switch in SpectacleCore.cpp lines 93 to 104. -/
inductive StartMode
  | DBusMode
  | BackgroundMode
  | GuiMode
deriving DecidableEq, Repr

/-- The three capture backends that the constructor can instantiate
(SpectacleCore.cpp lines 65 to 76). -/
inductive GrabberKind
  | X11ImageGrabber
  | KWinWaylandImageGrabber
  | DummyImageGrabber
deriving DecidableEq, Repr

/-- Platform facts read by the constructor: whether XCB support was compiled
in (the XCB_FOUND preprocessor conditional) and the KWindowSystem platform
predicates. -/
structure PlatformFacts where
  xcbFound : Bool
  isPlatformX11 : Bool
  isPlatformWayland : Bool
deriving DecidableEq, Repr

/-- Backend selection from the constructor, SpectacleCore.cpp lines 65 to 76:
mImageGrabber starts as nullptr; if XCB_FOUND and the session is X11 it
becomes an X11ImageGrabber; if still null and the session is Wayland it
becomes a KWinWaylandImageGrabber; if still null it becomes a
DummyImageGrabber. The Option models the nullable pointer. -/
def imageGrabberChoice (p : PlatformFacts) : Option GrabberKind :=
  let g1 : Option GrabberKind :=
    if p.xcbFound && p.isPlatformX11 then some GrabberKind.X11ImageGrabber else none
  let g2 : Option GrabberKind :=
    if g1.isNone && p.isPlatformWayland then some GrabberKind.KWinWaylandImageGrabber else g1
  if g2.isNone then some GrabberKind.DummyImageGrabber else g2

/-- The compositor settle wait, the expression
`KWindowSystem::compositingActive() ? 200 : 50` appearing at
SpectacleCore.cpp lines 97 and 166. -/
def compositorSettleMsec (compositingActive : Bool) : Int :=
  if compositingActive then 200 else 50

/-- The capture call issued by takeNewScreenshot after it has set the grab
options. -/
inductive CaptureCall
  | doOnClickGrab
  | timerSingleShotImageGrab (msec : Int)
deriving DecidableEq, Repr

/-- takeNewScreenshot, SpectacleCore.cpp lines 148 to 168: a negative
timeout triggers doOnClickGrab and returns; otherwise a single-shot timer
for doImageGrab is scheduled with delay `timeout + msec` where msec is the
compositor settle wait. -/
def takeNewScreenshotCapture (compositingActive : Bool) (timeout : Int) : CaptureCall :=
  if timeout < 0 then CaptureCall.doOnClickGrab
  else CaptureCall.timerSingleShotImageGrab (timeout + compositorSettleMsec compositingActive)

/-- The delay clamp in the constructor, SpectacleCore.cpp lines 82 to 84:
a negative delayMsec is replaced by 0 when the selected backend does not
support on-click grabbing. -/
def ctorDelayMsec (onClickGrabSupported : Bool) (delayMsec : Int) : Int :=
  if onClickGrabSupported = false ∧ delayMsec < 0 then 0 else delayMsec

/-- Startup actions performed by the constructor switch. -/
inductive StartupAction
  | scheduleTimerGrab (msec : Int)
  | callInitGui
deriving DecidableEq, Repr

/-- The constructor switch on startMode, SpectacleCore.cpp lines 93 to 104:
DBusMode does nothing, BackgroundMode schedules one single-shot timer for
doImageGrab with delay `(compositingActive ? 200 : 50) + delayMsec`, and
GuiMode calls initGui. -/
def ctorStartupActions (startMode : StartMode) (compositingActive : Bool)
    (delayMsec : Int) : List StartupAction :=
  match startMode with
  | StartMode.DBusMode => []
  | StartMode.BackgroundMode =>
      [StartupAction.scheduleTimerGrab (compositorSettleMsec compositingActive + delayMsec)]
  | StartMode.GuiMode => [StartupAction.callInitGui]

/-- Actions performed by initGui. -/
inductive GuiAction
  | createMainWindow
  | connectNewScreenshotRequest
  | connectDragAndDropRequest
  | queueImageGrab
deriving DecidableEq, Repr

/-- initGui, SpectacleCore.cpp lines 293 to 304: when the GUI is not yet
initialized it creates the main window, makes two connections, and queues
exactly one doImageGrab on the event loop; otherwise it does nothing. -/
def initGuiActions (isGuiInited : Bool) : List GuiAction :=
  if isGuiInited then []
  else [GuiAction.createMainWindow, GuiAction.connectNewScreenshotRequest,
        GuiAction.connectDragAndDropRequest, GuiAction.queueImageGrab]

/-- QUrl values as they occur in the embedded code: either the
default-constructed null URL `QUrl()` or a URL built by
`QUrl::fromUserInput` from a string. The parsing done by fromUserInput is
framework code; we keep it as an uninterpreted injection. -/
inductive QUrl
  | nullUrl
  | fromUserInput (input : String)
deriving DecidableEq, Repr

/-- Framework actions performed by the SpectacleCore slots, in the order
the source performs them. -/
inductive Action
  | setExportPixmap
  | connectImageSavedToDoNotify
  | doSave (url : QUrl)
  | emitAllDone
  | setScreenshotAndShow
  | debugLog (errString : String)
  | messageBoxError (errString : String)
  | emitGrabFailed
  | showMainWindow
deriving DecidableEq, Repr

/-- showErrorMessage, SpectacleCore.cpp lines 170 to 177: always writes the
error string to the debug log via qDebug, and additionally shows a
KMessageBox error dialog when mStartMode is GuiMode. -/
def showErrorMessageActions (mStartMode : StartMode) (errString : String) : List Action :=
  [Action.debugLog errString] ++
    (if mStartMode = StartMode.GuiMode then [Action.messageBoxError errString] else [])

/-- The save path chosen by screenshotUpdated, SpectacleCore.cpp lines 191
to 192: the stored file URL when in BackgroundMode and the URL is valid and
a local file, otherwise the null URL `QUrl()`. Validity and local-file
status of a QUrl are framework predicates, passed in as booleans. -/
def screenshotUpdatedSavePath (mStartMode : StartMode) (mFileNameUrl : QUrl)
    (urlIsValid urlIsLocalFile : Bool) : QUrl :=
  if mStartMode = StartMode.BackgroundMode ∧ urlIsValid = true ∧ urlIsLocalFile = true then
    mFileNameUrl
  else QUrl.nullUrl

/-- screenshotUpdated, SpectacleCore.cpp lines 179 to 205: stores the new
pixmap in the export manager, then in BackgroundMode or DBusMode optionally
connects imageSaved to doNotify (when mNotify), starts the save, and emits
allDone only when mNotify is false; in GuiMode it hands the pixmap to the
main window and shows it. -/
def screenshotUpdatedActions (mStartMode : StartMode) (mNotify : Bool)
    (mFileNameUrl : QUrl) (urlIsValid urlIsLocalFile : Bool) : List Action :=
  Action.setExportPixmap ::
    (match mStartMode with
     | StartMode.GuiMode => [Action.setScreenshotAndShow]
     | _ =>
        (if mNotify then [Action.connectImageSavedToDoNotify] else [])
        ++ [Action.doSave (screenshotUpdatedSavePath mStartMode mFileNameUrl urlIsValid urlIsLocalFile)]
        ++ (if mNotify then [] else [Action.emitAllDone]))

/-- screenshotFailed, SpectacleCore.cpp lines 207 to 219: in BackgroundMode
it calls showErrorMessage (falling through to the DBusMode case), in
DBusMode it emits grabFailed and allDone, and in GuiMode it only shows the
main window. -/
def screenshotFailedActions (mStartMode : StartMode) : List Action :=
  match mStartMode with
  | StartMode.BackgroundMode =>
      showErrorMessageActions StartMode.BackgroundMode "Screenshot capture canceled or failed"
        ++ [Action.emitGrabFailed, Action.emitAllDone]
  | StartMode.DBusMode => [Action.emitGrabFailed, Action.emitAllDone]
  | StartMode.GuiMode => [Action.showMainWindow]

/-- The notification events that doNotify reacts to. -/
inductive NotifyTrigger
  | action1Activated
  | notificationDestroyed
deriving DecidableEq, Repr

/-- A connection made by doNotify that leads to the allDone signal:
its trigger, and the delay of the single-shot timer it goes through,
if any. -/
structure AllDoneConnection where
  trigger : NotifyTrigger
  timerDelayMsec : Option Int
deriving DecidableEq, Repr

/-- doNotify, SpectacleCore.cpp lines 257 to 261: the only connections to
allDone it creates are from the Open action (action1Activated, through a
250 msec single-shot timer) and from destruction of the notification. -/
def doNotifyAllDoneConnections : List AllDoneConnection :=
  [{ trigger := NotifyTrigger.action1Activated, timerDelayMsec := some 250 },
   { trigger := NotifyTrigger.notificationDestroyed, timerDelayMsec := none }]

/-- An opaque pixmap value; the pixel data itself is framework state. -/
structure QPixmap where
  pixmapId : Nat
deriving DecidableEq, Repr

/-- The member fields of the core object, from KSCore.h lines 127 to 135:
a handful of boolean flags, one pixmap slot, and the save filename as a
string plus its URL form. The grabber and main-window pointers are the
framework objects modelled separately above. -/
structure KSCoreState where
  mBackgroundMode : Bool
  mNotify : Bool
  mOverwriteOnSave : Bool
  mBackgroundSendToClipboard : Bool
  mLocalPixmap : QPixmap
  mFileNameString : String
  mFileNameUrl : QUrl
deriving DecidableEq, Repr

/-- setFilename, SpectacleCore.cpp lines 121 to 125: stores the string and
its QUrl::fromUserInput form. -/
def setFilename (st : KSCoreState) (filename : String) : KSCoreState :=
  { st with
    mFileNameString := filename
    mFileNameUrl := QUrl.fromUserInput filename }

/-- Modelled from the spec: the pixmap store written by capture completion
(ExportManager::setPixmap is called at SpectacleCore.cpp line 181 but
ExportManager is not among the provided sources; KSCore.h line 131
declares the corresponding single slot mLocalPixmap). The spec says the
state holds a single in-memory pixmap that capture completion replaces. -/
def storePixmap (st : KSCoreState) (pixmap : QPixmap) : KSCoreState :=
  { st with mLocalPixmap := pixmap }

/-- A Unix path is absolute when it starts with a slash; this models the
QDir path classification used by the constructor. -/
def isAbsolutePath (path : String) : Bool :=
  path.data.head? == some '/'

/-- QDir::isRelativePath, as used at SpectacleCore.cpp line 59: a path that
is not absolute. -/
def isRelativePath (path : String) : Bool :=
  ! isAbsolutePath path

/-- QDir::current().absoluteFilePath(fileName) for a relative fileName:
the current directory path joined with the name by a slash. -/
def absoluteFilePath (dirPath fileName : String) : String :=
  dirPath ++ "/" ++ fileName

/-- The save-filename handling in the constructor, SpectacleCore.cpp lines
58 to 63: a non-empty saveFileName is made absolute against the current
directory when relative and then stored via setFilename; an empty one is
left alone (the member string stays default-constructed, i.e. empty). -/
def ctorApplySaveFileName (st : KSCoreState) (currentDirPath saveFileName : String) :
    KSCoreState :=
  if saveFileName.isEmpty then st
  else
    setFilename st
      (if isRelativePath saveFileName then absoluteFilePath currentDirPath saveFileName
       else saveFileName)

/-- C1: every capture request goes through a single-shot timer whose delay
is the requested timeout plus the compositor settle amount, 200 msec when
compositing is active and 50 msec otherwise; this holds for
takeNewScreenshot with a non-negative timeout and for the BackgroundMode
branch of the constructor with delayMsec. -/
theorem capture_delay_is_timeout_plus_settle
    (compositingActive : Bool) (timeout delayMsec : Int) (h : 0 ≤ timeout) :
    takeNewScreenshotCapture compositingActive timeout
      = CaptureCall.timerSingleShotImageGrab
          (timeout + (if compositingActive then 200 else 50))
    ∧ ctorStartupActions StartMode.BackgroundMode compositingActive delayMsec
      = [StartupAction.scheduleTimerGrab
          (delayMsec + (if compositingActive then 200 else 50))] := by
  constructor
  · rw [takeNewScreenshotCapture, if_neg (not_lt.mpr h)]
    rfl
  · show [StartupAction.scheduleTimerGrab (compositorSettleMsec compositingActive + delayMsec)]
      = _
    rw [Int.add_comm]
    rfl

/-- Witness for C1 at compositingActive = true, timeout = 100,
delayMsec = 7. -/
theorem capture_delay_is_timeout_plus_settle_witness :
    takeNewScreenshotCapture true 100
      = CaptureCall.timerSingleShotImageGrab (100 + (if true then 200 else 50))
    ∧ ctorStartupActions StartMode.BackgroundMode true 7
      = [StartupAction.scheduleTimerGrab (7 + (if true then 200 else 50))] :=
  capture_delay_is_timeout_plus_settle true 100 7 (by decide)

/-- C2: the constructor dispatches on the three start modes only: DBusMode
takes no startup action, BackgroundMode schedules exactly one timer-delayed
image grab, and GuiMode calls initGui, which (on a fresh core) queues
exactly one image grab. -/
theorem ctor_start_mode_dispatch (compositingActive : Bool) (delayMsec : Int) :
    ctorStartupActions StartMode.DBusMode compositingActive delayMsec = []
    ∧ ctorStartupActions StartMode.BackgroundMode compositingActive delayMsec
        = [StartupAction.scheduleTimerGrab
            (compositorSettleMsec compositingActive + delayMsec)]
    ∧ ctorStartupActions StartMode.GuiMode compositingActive delayMsec
        = [StartupAction.callInitGui]
    ∧ (∀ startMode, ctorStartupActions startMode compositingActive delayMsec = []
        ∨ ctorStartupActions startMode compositingActive delayMsec
            = [StartupAction.scheduleTimerGrab
                (compositorSettleMsec compositingActive + delayMsec)]
        ∨ ctorStartupActions startMode compositingActive delayMsec
            = [StartupAction.callInitGui])
    ∧ (initGuiActions false).count GuiAction.queueImageGrab = 1 := by
  refine ⟨rfl, rfl, rfl, ?_, by decide⟩
  intro startMode
  cases startMode
  · exact Or.inl rfl
  · exact Or.inr (Or.inl rfl)
  · exact Or.inr (Or.inr rfl)

/-- C4: a BackgroundMode run never shows a window: the BackgroundMode
branch of the constructor does not call initGui, and screenshotUpdated in
BackgroundMode saves through the export manager and performs no
main-window action. -/
theorem background_mode_never_shows_window
    (compositingActive : Bool) (delayMsec : Int)
    (mNotify urlIsValid urlIsLocalFile : Bool) (mFileNameUrl : QUrl) :
    StartupAction.callInitGui
        ∉ ctorStartupActions StartMode.BackgroundMode compositingActive delayMsec
    ∧ Action.doSave (screenshotUpdatedSavePath StartMode.BackgroundMode mFileNameUrl
          urlIsValid urlIsLocalFile)
        ∈ screenshotUpdatedActions StartMode.BackgroundMode mNotify mFileNameUrl
            urlIsValid urlIsLocalFile
    ∧ Action.setScreenshotAndShow
        ∉ screenshotUpdatedActions StartMode.BackgroundMode mNotify mFileNameUrl
            urlIsValid urlIsLocalFile
    ∧ Action.showMainWindow
        ∉ screenshotUpdatedActions StartMode.BackgroundMode mNotify mFileNameUrl
            urlIsValid urlIsLocalFile := by
  cases mNotify <;>
    simp [ctorStartupActions, screenshotUpdatedActions]

/-- C5: the backend is chosen by platform: the X11 grabber on an X11
session when XCB support is compiled in, otherwise the KWin Wayland grabber
on a Wayland session, and the dummy grabber in every other case; in
particular the constructor always ends with a non-null grabber. -/
theorem backend_chosen_by_platform (p : PlatformFacts) :
    imageGrabberChoice p
      = some (if p.xcbFound && p.isPlatformX11 then GrabberKind.X11ImageGrabber
              else if p.isPlatformWayland then GrabberKind.KWinWaylandImageGrabber
              else GrabberKind.DummyImageGrabber) := by
  obtain ⟨xcb, x11, way⟩ := p
  cases xcb <;> cases x11 <;> cases way <;> rfl

/-- C3 counterexample: in GuiMode an error routed through showErrorMessage
reaches both sinks, the debug log and the message box, and a capture
failure in GuiMode reaches neither sink, so errors are not routed to
exactly one of the two sinks depending on start mode. -/
theorem gui_error_not_exactly_one_sink :
    Action.debugLog "save failed" ∈ showErrorMessageActions StartMode.GuiMode "save failed"
    ∧ Action.messageBoxError "save failed"
        ∈ showErrorMessageActions StartMode.GuiMode "save failed"
    ∧ (showErrorMessageActions StartMode.GuiMode "save failed").length = 2
    ∧ screenshotFailedActions StartMode.GuiMode = [Action.showMainWindow] := by
  refine ⟨?_, ?_, rfl, rfl⟩ <;> simp [showErrorMessageActions]

/-- C3 amended: an error routed through showErrorMessage is always written
to the debug log and is additionally shown in a message box exactly when
the start mode is GuiMode; a capture failure reaches the debug log only in
BackgroundMode, in DBusMode it only emits grabFailed and allDone, and in
GuiMode it shows the main window without routing any error message. -/
theorem error_routing_by_start_mode (mStartMode : StartMode) (errString : String) :
    Action.debugLog errString ∈ showErrorMessageActions mStartMode errString
    ∧ (Action.messageBoxError errString ∈ showErrorMessageActions mStartMode errString
        ↔ mStartMode = StartMode.GuiMode)
    ∧ screenshotFailedActions StartMode.BackgroundMode
        = [Action.debugLog "Screenshot capture canceled or failed",
           Action.emitGrabFailed, Action.emitAllDone]
    ∧ screenshotFailedActions StartMode.DBusMode
        = [Action.emitGrabFailed, Action.emitAllDone]
    ∧ screenshotFailedActions StartMode.GuiMode = [Action.showMainWindow] := by
  refine ⟨?_, ?_, rfl, rfl, rfl⟩ <;>
    cases mStartMode <;> simp [showErrorMessageActions]

/-- C6: the runtime state is the record of simple value holders declared in
KSCore.h plus the single pixmap slot, and capture completion simply
replaces the stored pixmap, leaving every other field unchanged, so at most
one pending screenshot ever exists. -/
theorem capture_replaces_single_pixmap (st : KSCoreState) (pixmap : QPixmap) :
    (storePixmap st pixmap).mLocalPixmap = pixmap
    ∧ (storePixmap st pixmap).mBackgroundMode = st.mBackgroundMode
    ∧ (storePixmap st pixmap).mNotify = st.mNotify
    ∧ (storePixmap st pixmap).mOverwriteOnSave = st.mOverwriteOnSave
    ∧ (storePixmap st pixmap).mBackgroundSendToClipboard = st.mBackgroundSendToClipboard
    ∧ (storePixmap st pixmap).mFileNameString = st.mFileNameString
    ∧ (storePixmap st pixmap).mFileNameUrl = st.mFileNameUrl :=
  ⟨rfl, rfl, rfl, rfl, rfl, rfl, rfl⟩

/-- C8: takeNewScreenshot with a negative timeout performs an on-click grab
and schedules no timer; and in the constructor a negative delay is replaced
by 0 when the selected backend does not support on-click grabbing. -/
theorem negative_timeout_on_click_grab
    (compositingActive : Bool) (timeout delayMsec : Int)
    (ht : timeout < 0) (hd : delayMsec < 0) :
    takeNewScreenshotCapture compositingActive timeout = CaptureCall.doOnClickGrab
    ∧ (∀ msec, takeNewScreenshotCapture compositingActive timeout
        ≠ CaptureCall.timerSingleShotImageGrab msec)
    ∧ ctorDelayMsec false delayMsec = 0 := by
  have hcall : takeNewScreenshotCapture compositingActive timeout
      = CaptureCall.doOnClickGrab := by
    rw [takeNewScreenshotCapture, if_pos ht]
  refine ⟨hcall, ?_, ?_⟩
  · intro msec
    rw [hcall]
    intro hcontra
    exact CaptureCall.noConfusion hcontra
  · rw [ctorDelayMsec, if_pos ⟨rfl, hd⟩]

/-- Witness for C8 at timeout = -1, delayMsec = -5. -/
theorem negative_timeout_on_click_grab_witness :
    takeNewScreenshotCapture false (-1) = CaptureCall.doOnClickGrab
    ∧ (∀ msec, takeNewScreenshotCapture false (-1)
        ≠ CaptureCall.timerSingleShotImageGrab msec)
    ∧ ctorDelayMsec false (-5) = 0 :=
  negative_timeout_on_click_grab false (-1) (-5) (by decide) (by decide)

/-- Helper: prepending characters keeps a path absolute. -/
theorem isAbsolutePath_append (a b : String) (h : isAbsolutePath a = true) :
    isAbsolutePath (a ++ b) = true := by
  rw [isAbsolutePath] at h ⊢
  rw [String.data_append]
  cases hd : a.data with
  | nil => rw [hd] at h; simp at h
  | cons c t => rw [hd] at h; simpa using h

/-- C9: setFilename stores exactly its argument as the filename string and
its fromUserInput form as the URL; and the constructor makes a non-empty
relative save filename absolute against the current directory before
storing it, so the filename stored by the constructor is absolute or
empty. -/
theorem set_filename_and_ctor_absolute
    (st st2 : KSCoreState) (s currentDirPath saveFileName : String)
    (hempty : st2.mFileNameString = "")
    (habs : isAbsolutePath currentDirPath = true) :
    (setFilename st s).mFileNameString = s
    ∧ (setFilename st s).mFileNameUrl = QUrl.fromUserInput s
    ∧ ((ctorApplySaveFileName st2 currentDirPath saveFileName).mFileNameString = ""
        ∨ isAbsolutePath
            (ctorApplySaveFileName st2 currentDirPath saveFileName).mFileNameString
          = true) := by
  refine ⟨rfl, rfl, ?_⟩
  rw [ctorApplySaveFileName]
  by_cases he : saveFileName.isEmpty
  · rw [if_pos he]
    exact Or.inl hempty
  · rw [if_neg he]
    by_cases hr : isRelativePath saveFileName = true
    · rw [if_pos hr]
      refine Or.inr ?_
      show isAbsolutePath (currentDirPath ++ "/" ++ saveFileName) = true
      exact isAbsolutePath_append (currentDirPath ++ "/") saveFileName
        (isAbsolutePath_append currentDirPath "/" habs)
    · rw [if_neg hr]
      refine Or.inr ?_
      show isAbsolutePath saveFileName = true
      simpa [isRelativePath] using hr

/-- Witness for C9 on a concrete state, with relative save filename
shot.png and current directory /home/user. -/
theorem set_filename_and_ctor_absolute_witness :
    (setFilename
        { mBackgroundMode := false, mNotify := false, mOverwriteOnSave := false,
          mBackgroundSendToClipboard := false, mLocalPixmap := { pixmapId := 0 },
          mFileNameString := "", mFileNameUrl := QUrl.nullUrl }
        "a.png").mFileNameString = "a.png"
    ∧ (setFilename
        { mBackgroundMode := false, mNotify := false, mOverwriteOnSave := false,
          mBackgroundSendToClipboard := false, mLocalPixmap := { pixmapId := 0 },
          mFileNameString := "", mFileNameUrl := QUrl.nullUrl }
        "a.png").mFileNameUrl = QUrl.fromUserInput "a.png"
    ∧ ((ctorApplySaveFileName
          { mBackgroundMode := false, mNotify := false, mOverwriteOnSave := false,
            mBackgroundSendToClipboard := false, mLocalPixmap := { pixmapId := 0 },
            mFileNameString := "", mFileNameUrl := QUrl.nullUrl }
          "/home/user" "shot.png").mFileNameString = ""
        ∨ isAbsolutePath
            (ctorApplySaveFileName
              { mBackgroundMode := false, mNotify := false, mOverwriteOnSave := false,
                mBackgroundSendToClipboard := false, mLocalPixmap := { pixmapId := 0 },
                mFileNameString := "", mFileNameUrl := QUrl.nullUrl }
              "/home/user" "shot.png").mFileNameString = true) :=
  set_filename_and_ctor_absolute _ _ "a.png" "/home/user" "shot.png" rfl (by decide)

/-- C10: in BackgroundMode and DBusMode, after a successful capture the
allDone signal is emitted by screenshotUpdated (immediately after the save
is started) exactly when notify-on-grab is disabled; when it is enabled,
screenshotUpdated emits no allDone, and every connection to allDone made by
doNotify is triggered by the Open action or by destruction of the
notification. -/
theorem all_done_iff_no_notify
    (mStartMode : StartMode) (mNotify urlIsValid urlIsLocalFile : Bool)
    (mFileNameUrl : QUrl) (h : mStartMode ≠ StartMode.GuiMode) :
    ((Action.emitAllDone
        ∈ screenshotUpdatedActions mStartMode mNotify mFileNameUrl urlIsValid urlIsLocalFile)
      ↔ mNotify = false)
    ∧ (mNotify = false →
        screenshotUpdatedActions mStartMode mNotify mFileNameUrl urlIsValid urlIsLocalFile
          = [Action.setExportPixmap,
             Action.doSave (screenshotUpdatedSavePath mStartMode mFileNameUrl
               urlIsValid urlIsLocalFile),
             Action.emitAllDone])
    ∧ (mNotify = true →
        Action.emitAllDone
          ∉ screenshotUpdatedActions mStartMode mNotify mFileNameUrl urlIsValid urlIsLocalFile
        ∧ ∀ c ∈ doNotifyAllDoneConnections,
            c.trigger = NotifyTrigger.action1Activated
            ∨ c.trigger = NotifyTrigger.notificationDestroyed) := by
  cases mStartMode with
  | GuiMode => exact absurd rfl h
  | DBusMode =>
      cases mNotify <;>
        simp [screenshotUpdatedActions, doNotifyAllDoneConnections]
  | BackgroundMode =>
      cases mNotify <;>
        simp [screenshotUpdatedActions, doNotifyAllDoneConnections]

/-- Witness for C10 in BackgroundMode with notify enabled. -/
theorem all_done_iff_no_notify_witness :
    ((Action.emitAllDone
        ∈ screenshotUpdatedActions StartMode.BackgroundMode true QUrl.nullUrl false false)
      ↔ true = false)
    ∧ (true = false →
        screenshotUpdatedActions StartMode.BackgroundMode true QUrl.nullUrl false false
          = [Action.setExportPixmap,
             Action.doSave (screenshotUpdatedSavePath StartMode.BackgroundMode QUrl.nullUrl
               false false),
             Action.emitAllDone])
    ∧ (true = true →
        Action.emitAllDone
          ∉ screenshotUpdatedActions StartMode.BackgroundMode true QUrl.nullUrl false false
        ∧ ∀ c ∈ doNotifyAllDoneConnections,
            c.trigger = NotifyTrigger.action1Activated
            ∨ c.trigger = NotifyTrigger.notificationDestroyed) :=
  all_done_iff_no_notify StartMode.BackgroundMode true false false QUrl.nullUrl
    (by decide)

end Spectacle
